import Mathlib

/-!
Verification of firestore_event_to_ics.py: a shallow embedding of the
helpers to_datetime and add_event_to_calendar, of the record-processing
loop of main, and of the CLI filter validation of main (lines 128-140).

Modelling choices:
* A Python datetime is a wall clock (seconds on a proleptic Gregorian
  timeline, as if the wall-clock fields were read in UTC) together with an
  optional fixed UTC offset in minutes (none = naive datetime).  Timezones
  are modelled as fixed UTC offsets in minutes; this captures every claim
  considered here (Europe/Brussels is UTC+1 on the concrete winter dates
  used below).
* datetime.fromtimestamp reads the ambient system timezone; it is made an
  explicit parameter sysOff (system UTC offset in minutes) threaded
  through to_datetime and add_event_to_calendar.
* Fallible Python code (raise TypeError, parser errors, sys.exit) is
  modelled with Except.
* The external ISO-8601 parser (dateutil.parser.parse) is not repository
  code; it is modelled on strict ISO-8601 inputs by isoParse below.
* The generated uid (uuid4) and dtstamp (datetime.now) fields carry no
  record-dependent information and are outside every claim; they are
  omitted from the Event structure.
-/

/-- A Python datetime: wall-clock seconds plus an optional UTC offset in
minutes (none means a naive datetime). -/
structure PyDateTime where
  wall : Int
  tz : Option Int
deriving DecidableEq

/-- Errors raised during normalization: TypeError for an unsupported date
type (line 39), a parser error for an unparseable string (line 37). -/
inductive PyError where
  | typeError
  | parseError
deriving DecidableEq

/-- The input shapes dispatched by to_datetime (lines 29-39): a Firestore
DatetimeWithNanoseconds carrying an epoch, a datetime, a numeric epoch,
a string, or any other (unsupported) value. -/
inductive Value where
  | fsTimestamp (epoch : Int)
  | dt (d : PyDateTime)
  | num (epoch : Int)
  | str (s : String)
  | other
deriving DecidableEq

/-- A Firestore event record: the dict fields read by
add_event_to_calendar.  A field of value none is an absent key
(dict.get returns None). -/
structure Record where
  title : Option String
  name : Option String
  start : Option Value
  «end» : Option Value
  all_day : Option Bool
  description : Option String
  location : Option String
  url : Option String
  type : Option String
deriving DecidableEq

/-- A serialized DTSTART/DTEND: a bare date (days since 1970-01-01, the
result of datetime.date()) or a full timezone-aware datetime. -/
inductive ICSTime where
  | date (days : Int)
  | instant (d : PyDateTime)
deriving DecidableEq

/-- A serialized calendar entry (the fields of the icalendar Event that
depend on the record; uid and dtstamp are freshly generated per run and
omitted). -/
structure Event where
  summary : String
  dtstart : ICSTime
  dtend : ICSTime
  description : Option String
  location : Option String
  url : Option String
  categories : List String
deriving DecidableEq

/-- The filter operator of the CLI: "==" or "in". -/
inductive WhereOp where
  | eq
  | inOp
deriving DecidableEq

/-- The Firestore query built by main before streaming documents. -/
structure Query where
  field : String
  op : WhereOp
  values : List String
deriving DecidableEq

/-- datetime.fromtimestamp(t) with no tz argument: the naive wall clock of
epoch t in the ambient system timezone (offset sysOff minutes). -/
def fromtimestamp (t : Int) (sysOff : Int) : PyDateTime :=
  { wall := t + sysOff * 60, tz := none }

/-- datetime.utcfromtimestamp(t): the naive wall clock of epoch t in UTC. -/
def utcfromtimestamp (t : Int) : PyDateTime :=
  { wall := t, tz := none }

/-- The epoch instant denoted by an aware datetime (wall clock minus
offset); on a naive datetime this returns the wall clock itself (such a
subtraction is only ever taken between two naive datetimes below). -/
def dtInstant (d : PyDateTime) : Int :=
  match d.tz with
  | some off => d.wall - off * 60
  | none => d.wall

/-- Python datetime subtraction, as a timedelta in seconds.  Both operands
are aware (instant difference) or both naive (wall difference); a mixed
subtraction raises in Python and is never reached here. -/
def dtSub (a b : PyDateTime) : Int :=
  match a.tz, b.tz with
  | some offa, some offb => (a.wall - offa * 60) - (b.wall - offb * 60)
  | _, _ => a.wall - b.wall

/-- Python datetime + timedelta: wall-clock addition, tzinfo kept. -/
def dtAdd (d : PyDateTime) (td : Int) : PyDateTime :=
  { d with wall := d.wall + td }

/-- dt.replace(tzinfo=tz): same wall clock, new offset attached. -/
def dtReplaceTz (d : PyDateTime) (tz : Int) : PyDateTime :=
  { d with tz := some tz }

/-- dt.astimezone(tz) on an aware datetime: same instant re-expressed at
offset tz. -/
def astimezone (d : PyDateTime) (tz : Int) : PyDateTime :=
  { wall := dtInstant d + tz * 60, tz := some tz }

/-- dt.date(): the calendar date of the wall clock, as days since
1970-01-01 (floor division; the offset is ignored). -/
def dtDate (d : PyDateTime) : Int :=
  Int.fdiv d.wall 86400

/-- Days from 1970-01-01 to the civil date y-m-d (standard
days-from-civil computation on the proleptic Gregorian calendar). -/
def daysFromCivil (y m d : Nat) : Int :=
  let y2 := if m ≤ 2 then y - 1 else y
  let era := y2 / 400
  let yoe := y2 - era * 400
  let mp := (m + 9) % 12
  let doy := (153 * mp + 2) / 5 + (d - 1)
  let doe := yoe * 365 + yoe / 4 - yoe / 100 + doy
  (era * 146097 + doe : Int) - 719468

/-- Naive wall-clock seconds of the civil timestamp y-m-d h:mi:s. -/
def wallOf (y m d h mi s : Nat) : Int :=
  daysFromCivil y m d * 86400 + (h * 3600 + mi * 60 + s : Nat)

/-- The aware datetime y-m-d h:mi:s at fixed UTC offset off minutes. -/
def mkAware (y m d h mi s : Nat) (off : Int) : PyDateTime :=
  { wall := wallOf y m d h mi s, tz := some off }

/-- Read exactly k decimal digits from a character list. -/
def parseDigits : Nat → List Char → Nat → Option (Nat × List Char)
  | 0, cs, acc => some (acc, cs)
  | _ + 1, [], _ => none
  | k + 1, c :: rest, acc =>
    if c.isDigit then parseDigits k rest (acc * 10 + (c.toNat - 48))
    else none

/-- Consume one expected character. -/
def expectChar (c : Char) : List Char → Option (List Char)
  | [] => none
  | x :: rest => if x = c then some rest else none

/-- Parse the trailing timezone designator of an ISO-8601 string: empty
(naive), Z, or a +HH:MM / -HH:MM offset. -/
def parseOffset (cs : List Char) : Option (Option Int) :=
  match cs with
  | [] => some none
  | [c] => if c = 'Z' then some (some 0) else none
  | c :: rest =>
    if c = '+' ∨ c = '-' then
      match parseDigits 2 rest 0 with
      | some (h, rest2) =>
        match expectChar ':' rest2 with
        | some rest3 =>
          match parseDigits 2 rest3 0 with
          | some (m, []) =>
            let off : Int := (h * 60 + m : Nat)
            some (some (if c = '-' then -off else off))
          | _ => none
        | none => none
      | none => none
    else none

/-- Modelled from the spec: dateutil.parser.parse is an external library
(not repository code); the spec states that ISO-8601 strings are the
accepted text shape, so the parser is modelled on strict ISO-8601 input
YYYY-MM-DDTHH:MM:SS with an optional Z or +-HH:MM offset; anything else
is a parse failure. -/
def isoParse (str : String) : Option PyDateTime := do
  let cs := str.toList
  let (y, r1) ← parseDigits 4 cs 0
  let r2 ← expectChar '-' r1
  let (mo, r3) ← parseDigits 2 r2 0
  let r4 ← expectChar '-' r3
  let (d, r5) ← parseDigits 2 r4 0
  let r6 ← expectChar 'T' r5
  let (h, r7) ← parseDigits 2 r6 0
  let r8 ← expectChar ':' r7
  let (mi, r9) ← parseDigits 2 r8 0
  let r10 ← expectChar ':' r9
  let (s, r11) ← parseDigits 2 r10 0
  if 1 ≤ mo ∧ mo ≤ 12 ∧ 1 ≤ d ∧ d ≤ 31 ∧ h ≤ 23 ∧ mi ≤ 59 ∧ s ≤ 59 then
    let off ← parseOffset r11
    some { wall := wallOf y mo d h mi s, tz := off }
  else
    none

/-- to_datetime (lines 23-44): convert a Firestore Timestamp, datetime,
numeric epoch or ISO string into a timezone-aware datetime; None maps to
None; a naive result gets tzinfo assigned by replace, an aware one is
converted with astimezone.  sysOff is the ambient system UTC offset read
by datetime.fromtimestamp. -/
def to_datetime (value : Option Value) (tzinfo : Int) (sysOff : Int) :
    Except PyError (Option PyDateTime) :=
  match value with
  | none => .ok none
  | some v =>
    let dtE : Except PyError PyDateTime :=
      match v with
      | .fsTimestamp t => .ok (fromtimestamp t sysOff)
      | .dt d => .ok d
      | .num t => .ok (fromtimestamp t sysOff)
      | .str s =>
        match isoParse s with
        | some d => .ok d
        | none => .error .parseError
      | .other => .error .typeError
    match dtE with
    | .error e => .error e
    | .ok dt =>
      match dt.tz with
      | none => .ok (some (dtReplaceTz dt tzinfo))
      | some _ => .ok (some (astimezone dt tzinfo))

/-- Lines 57-61: the default end when the end field is missing.  The two
dead reassignments (a copy of start plus a zero timedelta, twice) are kept
as written; the value that survives is
start + (utcfromtimestamp(3600) - utcfromtimestamp(0)). -/
def defaultEnd (start : PyDateTime) : PyDateTime :=
  let _end1 := dtAdd { start with tz := start.tz } (dtSub start start)
  let _end2 := dtAdd start (dtSub (utcfromtimestamp 0) (utcfromtimestamp 0))
  dtAdd start (dtSub (utcfromtimestamp 3600) (utcfromtimestamp 0))

/-- Truthiness-based or on optional strings: the Python expression
a or b, where None and the empty string are falsy. -/
def pyOrStr (a b : Option String) : Option String :=
  match a with
  | some s => if s = "" then b else some s
  | none => b

/-- Line 48: title = data.get("title") or data.get("name") or "Untitled". -/
def resolveTitle (title name : Option String) : String :=
  (pyOrStr (pyOrStr title name) (some "Untitled")).getD "Untitled"

/-- Lines 78-83: an optional string field is emitted only when truthy
(present and non-empty). -/
def truthyField (a : Option String) : Option String :=
  match a with
  | some s => if s = "" then none else some s
  | none => none

/-- add_event_to_calendar (lines 46-93): normalize one record.  Returns
ok none for the skip signal (missing start, line 54), ok (some event) for
a produced entry, error when to_datetime raises.  start is resolved
before end, matching the evaluation order of lines 49-50. -/
def add_event_to_calendar (data : Record) (tzinfo : Int) (sysOff : Int) :
    Except PyError (Option Event) :=
  let title := resolveTitle data.title data.name
  match to_datetime data.start tzinfo sysOff with
  | .error e => .error e
  | .ok startO =>
    match to_datetime data.«end» tzinfo sysOff with
    | .error e => .error e
    | .ok endO =>
      match startO with
      | none => .ok none
      | some start =>
        let evEnd := match endO with
          | none => defaultEnd start
          | some e => e
        let all_day := data.all_day.getD false
        .ok (some {
          summary := title
          dtstart := if all_day then .date (dtDate start) else .instant start
          dtend := if all_day then .date (dtDate evEnd) else .instant evEnd
          description := truthyField data.description
          location := truthyField data.location
          url := truthyField data.url
          categories := [data.type.getD "event"] })

/-- Lines 151-154 of main: process the fetched documents in order,
accumulating calendar entries and the count of successfully included
events; an error from add_event_to_calendar aborts the run. -/
def processDocs (docs : List Record) (tzinfo : Int) (sysOff : Int) :
    Except PyError (List Event × Nat) :=
  match docs with
  | [] => .ok ([], 0)
  | d :: rest =>
    match add_event_to_calendar d tzinfo sysOff with
    | .error e => .error e
    | .ok r =>
      match processDocs rest tzinfo sysOff with
      | .error e => .error e
      | .ok (evs, n) =>
        match r with
        | some ev => .ok (ev :: evs, n + 1)
        | none => .ok (evs, n)

/-- Lines 128-140 of main: validate the where-op / types combination and
build the query.  An error carries the exit code (2) and the message
printed to standard error; with op == the single value types[0] is passed,
with op in the whole list is passed. -/
def buildQuery (whereField : String) (whereOp : WhereOp)
    (types : List String) : Except (Nat × String) Query :=
  match whereOp with
  | .eq =>
    if h : types.length = 1 then
      .ok { field := whereField, op := .eq,
            values := [types.get ⟨0, by omega⟩] }
    else
      .error (2, "With --where-op == you must pass exactly one value to --types.")
  | .inOp =>
    if types.length > 10 then
      .error (2, "Firestore in queries support up to 10 values. Please reduce --types.")
    else
      .ok { field := whereField, op := .inOp, values := types }

/-! Shared lemmas: the event produced by add_event_to_calendar once both
to_datetime calls are resolved. -/

/-- When start resolves to some datetime and end resolves to some datetime,
add_event_to_calendar produces exactly the entry built from them. -/
theorem add_event_resolved (r : Record) (tz sysOff : Int) (s e : PyDateTime)
    (hs : to_datetime r.start tz sysOff = .ok (some s))
    (he : to_datetime r.«end» tz sysOff = .ok (some e)) :
    add_event_to_calendar r tz sysOff = .ok (some {
      summary := resolveTitle r.title r.name
      dtstart := if r.all_day.getD false then .date (dtDate s) else .instant s
      dtend := if r.all_day.getD false then .date (dtDate e) else .instant e
      description := truthyField r.description
      location := truthyField r.location
      url := truthyField r.url
      categories := [r.type.getD "event"] }) := by
  unfold add_event_to_calendar
  rw [hs, he]

/-- When start resolves to some datetime and the end field is absent,
add_event_to_calendar produces the entry whose end is start plus 3600
seconds (the default built at lines 57-61). -/
theorem add_event_resolved_noend (r : Record) (tz sysOff : Int) (s : PyDateTime)
    (hs : to_datetime r.start tz sysOff = .ok (some s))
    (he : r.«end» = none) :
    add_event_to_calendar r tz sysOff = .ok (some {
      summary := resolveTitle r.title r.name
      dtstart := if r.all_day.getD false then .date (dtDate s) else .instant s
      dtend := if r.all_day.getD false then .date (dtDate (dtAdd s 3600))
               else .instant (dtAdd s 3600)
      description := truthyField r.description
      location := truthyField r.location
      url := truthyField r.url
      categories := [r.type.getD "event"] }) := by
  have hde : defaultEnd s = dtAdd s 3600 := by
    simp [defaultEnd, dtSub, utcfromtimestamp, dtAdd]
  unfold add_event_to_calendar
  rw [hs, he]
  simp only [to_datetime, hde]

/-- The instant denoted by a datetime shifted by a timedelta moves by
exactly that timedelta. -/
theorem dtInstant_dtAdd (d : PyDateTime) (td : Int) :
    dtInstant (dtAdd d td) = dtInstant d + td := by
  cases d with
  | mk wall tz =>
    cases tz
    · simp [dtInstant, dtAdd]
    · simp [dtInstant, dtAdd]
      ring

/-! Claim C1 -/

/-- Claim C1 counterexample: the conversion of a numeric epoch does not
depend only on the value and the target timezone.  With epoch 0 and
target offset 0 (UTC), a system offset of 0 yields the instant 0 but a
system offset of +60 minutes yields a datetime denoting instant 3600, so
the result is interpreted through the system zone and does not denote
epoch 0. -/
theorem to_datetime_epoch_counterexample :
    to_datetime (some (Value.num 0)) 0 0 =
      .ok (some { wall := 0, tz := some 0 }) ∧
    to_datetime (some (Value.num 0)) 0 60 =
      .ok (some { wall := 3600, tz := some 0 }) ∧
    ({ wall := 0, tz := some 0 } : PyDateTime) ≠ { wall := 3600, tz := some 0 } ∧
    dtInstant { wall := 3600, tz := some 0 } = 3600 ∧ (3600 : Int) ≠ 0 := by
  refine ⟨rfl, rfl, by decide, by decide, by decide⟩

/-- Claim C1 (amended): to_datetime on a numeric epoch v builds the naive
wall clock of v in the ambient system timezone (offset sysOff minutes) and
assigns the target offset tz; the result denotes the instant
v + (sysOff - tz) * 60, which equals v exactly when the system offset
equals the target offset. -/
theorem to_datetime_epoch_system_zone (v tz sysOff : Int) :
    to_datetime (some (Value.num v)) tz sysOff =
      .ok (some { wall := v + sysOff * 60, tz := some tz }) ∧
    dtInstant { wall := v + sysOff * 60, tz := some tz } =
      v + (sysOff - tz) * 60 ∧
    (dtInstant { wall := v + sysOff * 60, tz := some tz } = v ↔ sysOff = tz) := by
  refine ⟨rfl, by simp [dtInstant]; ring, ?_⟩
  simp only [dtInstant]
  constructor
  · intro h
    omega
  · intro h
    omega

/-! Claim C2 -/

/-- Claim C2: for every record with a convertible start and an absent end,
the normalized end is start plus exactly one hour: the produced entry
stores start + 3600 seconds (as an instant, or its date when all_day),
and that datetime denotes the start instant plus 3600 seconds. -/
theorem missing_end_defaults_one_hour (r : Record) (tz sysOff : Int)
    (s : PyDateTime)
    (hs : to_datetime r.start tz sysOff = .ok (some s))
    (he : r.«end» = none) :
    ∃ ev, add_event_to_calendar r tz sysOff = .ok (some ev) ∧
      ev.dtend = (if r.all_day.getD false then .date (dtDate (dtAdd s 3600))
                  else .instant (dtAdd s 3600)) ∧
      dtInstant (dtAdd s 3600) = dtInstant s + 3600 := by
  exact ⟨_, add_event_resolved_noend r tz sysOff s hs he, rfl,
    dtInstant_dtAdd s 3600⟩

/-- Claim C2 witness: a concrete record whose start is the naive datetime
at wall clock 0 and whose end is absent, under target offset +60: the
entry ends at wall clock 3600 with offset +60. -/
theorem missing_end_defaults_one_hour_witness :
    ∃ ev, add_event_to_calendar
      { title := some "t", name := none,
        start := some (.dt { wall := 0, tz := none }), «end» := none,
        all_day := none, description := none, location := none,
        url := none, type := none } 60 0 = .ok (some ev) ∧
      ev.dtend = .instant { wall := 3600, tz := some 60 } ∧
      dtInstant { wall := 3600, tz := some 60 } =
        dtInstant { wall := 0, tz := some 60 } + 3600 := by
  obtain ⟨ev, h1, h2, h3⟩ := missing_end_defaults_one_hour
    { title := some "t", name := none,
      start := some (.dt { wall := 0, tz := none }), «end» := none,
      all_day := none, description := none, location := none,
      url := none, type := none } 60 0 { wall := 0, tz := some 60 } rfl rfl
  exact ⟨ev, h1, by rw [h2]; rfl, by rw [← h3]; rfl⟩

/-! Claim C3 -/

/-- Claim C3 counterexample: a record with an absent start but an
unsupported end value does not return the skip signal silently: the end
field is converted before the start check (line 50 before line 52), so
to_datetime raises TypeError and the error aborts the run. -/
theorem missing_start_unsupported_end_raises :
    ({ title := none, name := none, start := none, «end» := some .other,
       all_day := none, description := none, location := none,
       url := none, type := none } : Record).start = none ∧
    add_event_to_calendar
      { title := none, name := none, start := none, «end» := some .other,
        all_day := none, description := none, location := none,
        url := none, type := none } 60 0 = .error .typeError := ⟨rfl, rfl⟩

/-- Claim C3 (amended): for every record whose start is absent and whose
end is absent or convertible (to_datetime succeeds on it), normalization
returns the skip signal: no error, no entry appended, and the count of
the processing loop does not increase for that record. -/
theorem missing_start_skipped (r : Record) (tz sysOff : Int)
    (hstart : r.start = none)
    (hend : ∃ eo, to_datetime r.«end» tz sysOff = .ok eo) :
    add_event_to_calendar r tz sysOff = .ok none ∧
    ∀ ds evs n, processDocs ds tz sysOff = .ok (evs, n) →
      processDocs (r :: ds) tz sysOff = .ok (evs, n) := by
  obtain ⟨eo, heo⟩ := hend
  have hadd : add_event_to_calendar r tz sysOff = .ok none := by
    unfold add_event_to_calendar
    rw [hstart, heo]
    rfl
  refine ⟨hadd, ?_⟩
  intro ds evs n hds
  unfold processDocs
  rw [hadd, hds]

/-- Claim C3 witness: a record with absent start and a numeric end is
skipped, and processing it as the only document yields zero entries and
count 0 without an error. -/
theorem missing_start_skipped_witness :
    add_event_to_calendar
      { title := none, name := none, start := none,
        «end» := some (.num 300), all_day := none, description := none,
        location := none, url := none, type := none } 0 0 = .ok none ∧
    processDocs
      [{ title := none, name := none, start := none,
         «end» := some (.num 300), all_day := none, description := none,
         location := none, url := none, type := none }] 0 0 =
      .ok ([], 0) := by
  have h := missing_start_skipped
    { title := none, name := none, start := none,
      «end» := some (.num 300), all_day := none, description := none,
      location := none, url := none, type := none } 0 0 rfl
    ⟨some { wall := 300 + 0 * 60, tz := some 0 }, rfl⟩
  exact ⟨h.1, h.2 [] [] 0 rfl⟩

/-! Claim C4 -/

/-- Claim C4: under the equals operator the run proceeds to query
construction exactly when the list of filter values has length one (the
query then carries that single value); for any other length it fails with
exit code 2 and the message printed to standard error, before any query
exists. -/
theorem equals_requires_exactly_one (f : String) (ts : List String) :
    buildQuery f .eq ts =
      if ts.length = 1 then
        .ok { field := f, op := .eq, values := ts }
      else
        .error (2, "With --where-op == you must pass exactly one value to --types.") := by
  match ts with
  | [] => rfl
  | [t] => rfl
  | a :: b :: rest =>
    have h : (a :: b :: rest).length ≠ 1 := by simp
    rw [if_neg h]
    simp [buildQuery, h]

/-! Claim C5 -/

/-- Claim C5: under the member-of-set operator every list of at most 10
filter values is accepted and passed whole to the query; every list of 11
or more values fails with exit code 2 and the message printed to standard
error. -/
theorem in_op_accepts_up_to_ten (f : String) (ts : List String) :
    buildQuery f .inOp ts =
      if ts.length ≤ 10 then
        .ok { field := f, op := .inOp, values := ts }
      else
        .error (2, "Firestore in queries support up to 10 values. Please reduce --types.") := by
  by_cases h : ts.length ≤ 10
  · rw [if_pos h]
    simp [buildQuery, Nat.not_lt.mpr h]
  · rw [if_neg h]
    simp [buildQuery, Nat.lt_of_not_le h]

/-! Claim C6 -/

/-- Claim C6: when all_day is true the entry stores only the calendar
dates of the resolved start and end — the stored end date is exactly the
date of the resolved end, with no exclusive-end adjustment; when all_day
is false or absent, the entry stores the full timezone-aware instants. -/
theorem all_day_date_serialization (r : Record) (tz sysOff : Int)
    (s e : PyDateTime)
    (hs : to_datetime r.start tz sysOff = .ok (some s))
    (he : to_datetime r.«end» tz sysOff = .ok (some e)) :
    ∃ ev, add_event_to_calendar r tz sysOff = .ok (some ev) ∧
      (r.all_day = some true →
        ev.dtstart = .date (dtDate s) ∧ ev.dtend = .date (dtDate e)) ∧
      (r.all_day.getD false = false →
        ev.dtstart = .instant s ∧ ev.dtend = .instant e) := by
  refine ⟨_, add_event_resolved r tz sysOff s e hs he, ?_, ?_⟩
  · intro h
    rw [h]
    exact ⟨rfl, rfl⟩
  · intro h
    rw [h]
    exact ⟨rfl, rfl⟩

/-- Claim C6 witness: an all-day record spanning 1970-01-02T01:00 to
1970-01-03T01:00 naive wall clocks stores dates 1 and 2 (days since
1970-01-01): the end date is not shifted by one day. -/
theorem all_day_date_serialization_witness :
    ∃ ev, add_event_to_calendar
      { title := some "d", name := none,
        start := some (.dt { wall := 90000, tz := none }),
        «end» := some (.dt { wall := 176400, tz := none }),
        all_day := some true, description := none, location := none,
        url := none, type := none } 0 0 = .ok (some ev) ∧
      ev.dtstart = .date 1 ∧ ev.dtend = .date 2 := by
  obtain ⟨ev, h1, h2, _⟩ := all_day_date_serialization
    { title := some "d", name := none,
      start := some (.dt { wall := 90000, tz := none }),
      «end» := some (.dt { wall := 176400, tz := none }),
      all_day := some true, description := none, location := none,
      url := none, type := none } 0 0
    { wall := 90000, tz := some 0 } { wall := 176400, tz := some 0 } rfl rfl
  obtain ⟨ha, hb⟩ := h2 rfl
  exact ⟨ev, h1, by rw [ha]; rfl, by rw [hb]; rfl⟩

/-! Claim C7 -/

/-- Claim C7: a value carrying no timezone information — a naive datetime,
or an ISO-8601 string that parses to a naive datetime — is given the
target offset with its wall-clock fields unchanged (assignment by
replace), not converted from UTC or any other zone. -/
theorem naive_input_assigned_not_converted (w tz sysOff : Int)
    (str : String) (d : PyDateTime)
    (hp : isoParse str = some d) (hn : d.tz = none) :
    to_datetime (some (.dt { wall := w, tz := none })) tz sysOff =
      .ok (some { wall := w, tz := some tz }) ∧
    to_datetime (some (.str str)) tz sysOff =
      .ok (some { wall := d.wall, tz := some tz }) := by
  constructor
  · rfl
  · cases d with
    | mk wall dtz =>
      cases hn
      simp [to_datetime, hp, dtReplaceTz]

/-- Claim C7 witness: the naive datetime at wall clock 0 and the ISO
string 2024-01-10T09:00:00 (no offset designator) both keep their wall
clock and receive offset +60. -/
theorem naive_input_assigned_not_converted_witness :
    isoParse "2024-01-10T09:00:00" =
      some { wall := 1704877200, tz := none } ∧
    to_datetime (some (.dt { wall := 0, tz := none })) 60 0 =
      .ok (some { wall := 0, tz := some 60 }) ∧
    to_datetime (some (.str "2024-01-10T09:00:00")) 60 0 =
      .ok (some { wall := 1704877200, tz := some 60 }) := by
  have h := naive_input_assigned_not_converted 0 60 0 "2024-01-10T09:00:00"
    { wall := 1704877200, tz := none } (by rfl) rfl
  exact ⟨by rfl, h.1, h.2⟩

/-! Claim C8 -/

/-- Claim C8: the record with title Sync, start 2024-01-10T09:00:00,
type meeting, all other fields absent, under target timezone
Europe/Brussels (UTC offset +60 minutes on that winter date) and any
system offset, normalizes to the entry with summary Sync, start
2024-01-10T09:00:00+01:00, end 2024-01-10T10:00:00+01:00 and category
list containing exactly meeting. -/
theorem sync_meeting_example (sysOff : Int) :
    add_event_to_calendar
      { title := some "Sync", name := none,
        start := some (.str "2024-01-10T09:00:00"), «end» := none,
        all_day := none, description := none, location := none,
        url := none, type := some "meeting" } 60 sysOff =
      .ok (some {
        summary := "Sync"
        dtstart := .instant (mkAware 2024 1 10 9 0 0 60)
        dtend := .instant (mkAware 2024 1 10 10 0 0 60)
        description := none, location := none, url := none
        categories := ["meeting"] }) := by
  rfl

/-! Claim C9 -/

/-- Claim C9: when both start and end resolve to datetimes, the entry
carries exactly the resolved pair (their instants, or their dates when
all_day) even when the resolved end instant is earlier than or equal to
the resolved start instant: no ordering validation, correction or
rejection takes place. -/
theorem no_ordering_validation (r : Record) (tz sysOff : Int)
    (s e : PyDateTime)
    (hs : to_datetime r.start tz sysOff = .ok (some s))
    (he : to_datetime r.«end» tz sysOff = .ok (some e))
    (_hle : dtInstant e ≤ dtInstant s) :
    ∃ ev, add_event_to_calendar r tz sysOff = .ok (some ev) ∧
      ev.dtstart = (if r.all_day.getD false then .date (dtDate s)
                    else .instant s) ∧
      ev.dtend = (if r.all_day.getD false then .date (dtDate e)
                  else .instant e) := by
  exact ⟨_, add_event_resolved r tz sysOff s e hs he, rfl, rfl⟩

/-- Claim C9 witness: a record whose end (wall clock 3600) is strictly
before its start (wall clock 7200) is still normalized, and the entry
stores exactly that inverted pair. -/
theorem no_ordering_validation_witness :
    dtInstant { wall := 3600, tz := some 0 } ≤
      dtInstant { wall := 7200, tz := some 0 } ∧
    ∃ ev, add_event_to_calendar
      { title := some "t", name := none,
        start := some (.dt { wall := 7200, tz := none }),
        «end» := some (.dt { wall := 3600, tz := none }),
        all_day := none, description := none, location := none,
        url := none, type := none } 0 0 = .ok (some ev) ∧
      ev.dtstart = .instant { wall := 7200, tz := some 0 } ∧
      ev.dtend = .instant { wall := 3600, tz := some 0 } := by
  obtain ⟨ev, h1, h2, h3⟩ := no_ordering_validation
    { title := some "t", name := none,
      start := some (.dt { wall := 7200, tz := none }),
      «end» := some (.dt { wall := 3600, tz := none }),
      all_day := none, description := none, location := none,
      url := none, type := none } 0 0
    { wall := 7200, tz := some 0 } { wall := 3600, tz := some 0 }
    rfl rfl (by decide)
  exact ⟨by decide, ev, h1, by rw [h2]; rfl, by rw [h3]; rfl⟩

/-! Claim C10 -/

/-- Claim C10: field handling is by truthiness, not key presence: a
record whose title is the empty string takes its summary from name
(Untitled when name is absent or empty), and description, location and
url equal to the empty string are omitted from the entry. -/
theorem empty_string_fields_by_truthiness (r : Record) (tz sysOff : Int)
    (s e : PyDateTime)
    (hs : to_datetime r.start tz sysOff = .ok (some s))
    (he : to_datetime r.«end» tz sysOff = .ok (some e))
    (ht : r.title = some "") (hd : r.description = some "")
    (hl : r.location = some "") (hu : r.url = some "") :
    ∃ ev, add_event_to_calendar r tz sysOff = .ok (some ev) ∧
      ev.summary = (match r.name with
                    | some n => if n = "" then "Untitled" else n
                    | none => "Untitled") ∧
      ev.description = none ∧ ev.location = none ∧ ev.url = none := by
  refine ⟨_, add_event_resolved r tz sysOff s e hs he, ?_, ?_, ?_, ?_⟩
  · rw [ht]
    cases hn : r.name with
    | none => rfl
    | some n =>
      by_cases hne : n = ""
      · simp [resolveTitle, pyOrStr, hne]
      · simp [resolveTitle, pyOrStr, hne]
  · rw [hd]
    rfl
  · rw [hl]
    rfl
  · rw [hu]
    rfl

/-- Claim C10 witness: a record with empty title and name N takes summary
N, and its empty description, location and url are all omitted. -/
theorem empty_string_fields_by_truthiness_witness :
    ∃ ev, add_event_to_calendar
      { title := some "", name := some "N",
        start := some (.dt { wall := 0, tz := none }),
        «end» := some (.dt { wall := 60, tz := none }),
        all_day := none, description := some "", location := some "",
        url := some "", type := none } 0 0 = .ok (some ev) ∧
      ev.summary = "N" ∧
      ev.description = none ∧ ev.location = none ∧ ev.url = none := by
  obtain ⟨ev, h1, h2, h3, h4, h5⟩ := empty_string_fields_by_truthiness
    { title := some "", name := some "N",
      start := some (.dt { wall := 0, tz := none }),
      «end» := some (.dt { wall := 60, tz := none }),
      all_day := none, description := some "", location := some "",
      url := some "", type := none } 0 0
    { wall := 0, tz := some 0 } { wall := 60, tz := some 0 }
    rfl rfl rfl rfl rfl rfl
  exact ⟨ev, h1, by rw [h2]; rfl, h3, h4, h5⟩
